import Mathlib

/-!
Formal model of the SuperOptiX DSPy runner core
(`superoptix/runners/dspy_runner.py` and
`superoptix/runners/dspy_runtime_helpers.py`).

The Python data that flows through these functions is modelled by the
`PyVal` inductive type (the JSON-like fragment actually used: `None`,
booleans, ints, floats-as-rationals, strings, lists and string-keyed
dicts).  Python dicts are modelled as insertion-ordered association
lists with unique keys; `dict.get`/`in` become association-list lookup
and key membership.  Numeric scores are modelled over `ℚ`.
-/

namespace SuperOptix

/-- Model of the Python values handled by the runner: `None`, `bool`,
`int`, `float` (as a rational), `str`, `list`, and string-keyed `dict`
(an insertion-ordered association list).  Tuples and sets occurring in
`isinstance` guards are represented by `list`. -/
inductive PyVal where
  | none : PyVal
  | bool (b : Bool) : PyVal
  | int (i : Int) : PyVal
  | num (q : ℚ) : PyVal
  | str (s : String) : PyVal
  | list (xs : List PyVal) : PyVal
  | dict (xs : List (String × PyVal)) : PyVal

/-- A Python dict of string keys, as an insertion-ordered association list. -/
abbrev PyDict := List (String × PyVal)

/-- `key in d` on a Python dict. -/
def hasKey (d : PyDict) (k : String) : Bool :=
  d.any (fun kv => kv.1 == k)

/-- `d.get(key)` on a Python dict (`none` when the key is absent). -/
def getKey (d : PyDict) (k : String) : Option PyVal :=
  (d.find? (fun kv => kv.1 == k)).map (fun kv => kv.2)

/-- `d.get(key, default)` on a Python dict. -/
def getKeyD (d : PyDict) (k : String) (v : PyVal) : PyVal :=
  (getKey d k).getD v

/-- Python `s.strip()` (strip whitespace from both ends), computed over
the character list. -/
def pyStrip (s : String) : String :=
  String.mk (((s.data.dropWhile Char.isWhitespace).reverse.dropWhile Char.isWhitespace).reverse)

/-- Python `s.lower()`, computed over the character list. -/
def pyLower (s : String) : String :=
  String.mk (s.data.map Char.toLower)

/-- Python `s.startswith(pre)`. -/
def startsWithS (s pre : String) : Bool :=
  go pre.data s.data
where
  go : List Char → List Char → Bool
  | [], _ => true
  | _ :: _, [] => false
  | a :: as, b :: bs => a == b && go as bs

/-- Split a character list at every occurrence of a separator
(Python `s.split(sep)` with a one-character separator). -/
def splitCharL (sep : Char) : List Char → List (List Char)
  | [] => [[]]
  | c :: t =>
      if c == sep then [] :: splitCharL sep t
      else
        match splitCharL sep t with
        | [] => [[c]]
        | cur :: rest => (c :: cur) :: rest

/-- Python `s.split(sep)` with a one-character separator. -/
def splitCharS (sep : Char) (s : String) : List String :=
  (splitCharL sep s.data).map String.mk

/-- Python truthiness of a modelled value. -/
def pyTruthy : PyVal → Bool
  | .none => false
  | .bool b => b
  | .int i => i ≠ 0
  | .num q => q ≠ 0
  | .str s => s ≠ ""
  | .list xs => ¬ xs.isEmpty
  | .dict xs => ¬ xs.isEmpty

/-- A single-quote character, used when rendering Python `repr`-style
error messages. -/
def sq : String := String.singleton (Char.ofNat 39)

mutual

/-- Python `str()` on the modelled values (container rendering follows
`repr`; float formatting is approximated by the rational's print form,
which no theorem below depends on). -/
def pyStr : PyVal → String
  | .none => "None"
  | .bool true => "True"
  | .bool false => "False"
  | .int i => toString i
  | .num q => toString q
  | .str s => s
  | .list xs => "[" ++ String.intercalate ", " (pyReprList xs) ++ "]"
  | .dict xs => "\x7b" ++ String.intercalate ", " (pyReprDict xs) ++ "\x7d"

/-- Python `repr()` (strings quoted, other scalars as `str()`). -/
def pyRepr : PyVal → String
  | .str s => sq ++ s ++ sq
  | .none => "None"
  | .bool true => "True"
  | .bool false => "False"
  | .int i => toString i
  | .num q => toString q
  | .list xs => "[" ++ String.intercalate ", " (pyReprList xs) ++ "]"
  | .dict xs => "\x7b" ++ String.intercalate ", " (pyReprDict xs) ++ "\x7d"

/-- `repr` of each element of a Python list. -/
def pyReprList : List PyVal → List String
  | [] => []
  | v :: vs => pyRepr v :: pyReprList vs

/-- `repr` of each `key: value` entry of a Python dict. -/
def pyReprDict : List (String × PyVal) → List String
  | [] => []
  | (k, v) :: kvs => (sq ++ k ++ sq ++ ": " ++ pyRepr v) :: pyReprDict kvs

end

/-- Insert a string into a lexicographically sorted list. -/
def insertSorted (x : String) : List String → List String
  | [] => [x]
  | y :: ys => if x ≤ y then x :: y :: ys else y :: insertSorted x ys

/-- Sort strings lexicographically (Python `sorted` on `str`). -/
def sortStrings : List String → List String
  | [] => []
  | x :: xs => insertSorted x (sortStrings xs)

/-- Python `repr` of a list of strings, as in
`sorted(list(allowed_set))` interpolated into an f-string. -/
def reprStrList (xs : List String) : String :=
  "[" ++ String.intercalate ", " (xs.map (fun s => sq ++ s ++ sq)) ++ "]"

/-!
## `_is_non_empty` (dspy_runtime_helpers.py lines 165-172)
-/

/-- `_is_non_empty`: `None` is empty, strings are non-empty when their
strip is, containers when they have elements, everything else counts as
non-empty. -/
def isNonEmpty : PyVal → Bool
  | .none => false
  | .str s => pyStrip s ≠ ""
  | .list xs => xs.length > 0
  | .dict xs => xs.length > 0
  | _ => true

/-!
## `validate_prediction_result` (dspy_runtime_helpers.py lines 175-272)

The `assertions_config` dict is modelled by the structure
`AssertionsCfg` whose fields are the values the source reads out of the
dict: `enabled`, `mode`, `metric_weight` (kept raw, since the source
passes it through `float(...)` with a fallback), `required_fields`,
`non_empty`, `enum`, `max_length` (limits kept raw for the
`isinstance(limit, int)` guard) and `custom_regex`.

`re.search` is an external library call; it is abstracted as an oracle
`RegexOracle` mapping a pattern and a subject to either a match result
or a compilation error (`re.error`).
-/

/-- Outcome oracle for `re.search pattern value`: `.error ()` models a
`re.error` raised for a malformed pattern, `.ok b` tells whether a match
was found. -/
abbrev RegexOracle := String → String → Except Unit Bool

/-- The assertion-configuration fields read by
`validate_prediction_result`. -/
structure AssertionsCfg where
  enabled : Bool := false
  mode : String := "fail_fast"
  metricWeight : Option PyVal := Option.none
  requiredFields : List String := []
  nonEmptyFields : List String := []
  enumRules : List (String × List PyVal) := []
  maxLengthRules : List (String × PyVal) := []
  customRegexRules : List (String × String) := []

/-- Python `float(v)` on a modelled value: `Option.none` models the
`TypeError`/`ValueError` cases. -/
def pyFloat : PyVal → Option ℚ
  | .int i => Option.some (i : ℚ)
  | .num q => Option.some q
  | .bool b => Option.some (if b then 1 else 0)
  | .str s => parseDecQ s
  | _ => Option.none
where
  /-- Decimal parse of a string into a rational, covering the
  sign/integer/fraction forms of Python float literals. -/
  parseDecQ (s : String) : Option ℚ :=
    let t := (pyStrip s).data
    let (sign, body) : ℚ × List Char :=
      match t with
      | '-' :: rest => (-1, rest)
      | '+' :: rest => (1, rest)
      | _ => (1, t)
    match splitCharL '.' body with
    | [a] => (digitsToNat a).map (fun n => sign * (n : ℚ))
    | [a, b] =>
        if a.isEmpty ∧ b.isEmpty then Option.none
        else
          match digitsToNatOrZero a, digitsToNatOrZero b with
          | Option.some (n, _), Option.some (f, len) =>
              Option.some (sign * ((n : ℚ) + (f : ℚ) / ((10 : ℚ) ^ len)))
          | _, _ => Option.none
    | _ => Option.none
  /-- All-digit parse of a non-empty character list. -/
  digitsToNat (cs : List Char) : Option ℕ :=
    if cs.isEmpty then Option.none
    else cs.foldl (fun acc c =>
      acc.bind (fun n => if c.isDigit then Option.some (n * 10 + (c.toNat - 48)) else Option.none))
      (Option.some 0)
  /-- All-digit parse allowing the empty string (value with digit count). -/
  digitsToNatOrZero (cs : List Char) : Option (ℕ × ℕ) :=
    cs.foldl (fun acc c =>
      acc.bind (fun nl => if c.isDigit then Option.some (nl.1 * 10 + (c.toNat - 48), nl.2 + 1)
        else Option.none))
      (Option.some (0, 0))

/-- `float(cfg.get("metric_weight", 0.3))` with the
`TypeError`/`ValueError` fallback to `0.3`. -/
def metricWeightOf (cfg : Option AssertionsCfg) : ℚ :=
  match cfg.bind (fun c => c.metricWeight) with
  | Option.none => 3 / 10
  | Option.some v => (pyFloat v).getD (3 / 10)

/-- `v is None` on an optional lookup result. -/
def isPyNone : Option PyVal → Bool
  | Option.some .none => true
  | _ => false

/-- Result record of `validate_prediction_result`. -/
structure ValidateOut where
  result : PyDict
  assertionsPassed : Bool
  assertionErrors : List String
  assertionMode : String
  assertionScore : ℚ
  checksTotal : ℕ
  checksFailed : ℕ
  metricWeight : ℚ

/-- The `required_fields` loop: one check per listed field; a field that
is absent or maps to `None` fails. -/
def requiredChecks (data : PyDict) : List String → List String × ℕ × ℕ
  | [] => ([], 0, 0)
  | f :: rest =>
      let (es, t, k) := requiredChecks data rest
      if ¬ hasKey data f ∨ isPyNone (getKey data f) then
        (("Missing required field: " ++ f) :: es, t + 1, k + 1)
      else (es, t + 1, k)

/-- The `non_empty` loop: one check per listed field; only a field that
is present and empty fails. -/
def nonEmptyChecks (data : PyDict) : List String → List String × ℕ × ℕ
  | [] => ([], 0, 0)
  | f :: rest =>
      let (es, t, k) := nonEmptyChecks data rest
      if hasKey data f ∧ ¬ isNonEmpty (getKeyD data f PyVal.none) then
        (("Field must be non-empty: " ++ f) :: es, t + 1, k + 1)
      else (es, t + 1, k)

/-- The `enum` loop: absent fields are skipped without counting a
check; present fields fail when their `str()` image is outside the
allowed set. -/
def enumChecks (data : PyDict) : List (String × List PyVal) → List String × ℕ × ℕ
  | [] => ([], 0, 0)
  | (f, allowed) :: rest =>
      let (es, t, k) := enumChecks data rest
      if ¬ hasKey data f then (es, t, k)
      else
        let allowedStrs := (allowed.map pyStr).dedup
        let v := getKeyD data f PyVal.none
        if ¬ allowedStrs.contains (pyStr v) then
          (("Field " ++ sq ++ f ++ sq ++ " value " ++ sq ++ pyStr v ++ sq ++
            " not in allowed set " ++ reprStrList (sortStrings allowedStrs)) :: es,
           t + 1, k + 1)
        else (es, t + 1, k)

/-- Python `len()` of the modelled values it is applied to here. -/
def pyLen : PyVal → ℕ
  | .str s => s.length
  | .list xs => xs.length
  | .dict xs => xs.length
  | _ => 0

/-- `isinstance(v, int)` (Python booleans are ints). -/
def isInstInt : PyVal → Bool
  | .int _ => true
  | .bool _ => true
  | _ => false

/-- Integer value of an `isinstance(v, int)` value. -/
def pyIntVal : PyVal → Int
  | .int i => i
  | .bool b => if b then 1 else 0
  | _ => 0

/-- The `max_length` loop: absent fields are skipped without counting a
check; a present string or container fails when its length exceeds an
integer limit. -/
def maxLengthChecks (data : PyDict) : List (String × PyVal) → List String × ℕ × ℕ
  | [] => ([], 0, 0)
  | (f, limit) :: rest =>
      let (es, t, k) := maxLengthChecks data rest
      if ¬ hasKey data f then (es, t, k)
      else
        let v := getKeyD data f PyVal.none
        let isStr : Bool := match v with | .str _ => true | _ => false
        let isColl : Bool := match v with | .list _ => true | .dict _ => true | _ => false
        if (isStr ∨ isColl) ∧ isInstInt limit ∧ (pyLen v : Int) > pyIntVal limit then
          (("Field " ++ sq ++ f ++ sq ++ " exceeds max_length=" ++ toString (pyIntVal limit) ++
            " (got " ++ toString (pyLen v) ++ ")") :: es, t + 1, k + 1)
        else (es, t + 1, k)

/-- The `custom_regex` loop: absent fields are skipped without counting
a check; for a present string field, a failed search or a malformed
pattern fails the check, and non-string values pass vacuously. -/
def regexChecks (rx : RegexOracle) (data : PyDict) :
    List (String × String) → List String × ℕ × ℕ
  | [] => ([], 0, 0)
  | (f, pat) :: rest =>
      let (es, t, k) := regexChecks rx data rest
      if ¬ hasKey data f then (es, t, k)
      else
        match getKeyD data f PyVal.none with
        | .str s =>
            match rx pat s with
            | .ok true => (es, t + 1, k)
            | .ok false =>
                (("Field " ++ sq ++ f ++ sq ++ " did not match required regex pattern") :: es,
                 t + 1, k + 1)
            | .error _ =>
                (("Invalid regex for field " ++ sq ++ f ++ sq) :: es, t + 1, k + 1)
        | _ => (es, t + 1, k)

/-- `validate_prediction_result(result, assertions_config)`: applies the
five rule families in order, counts checks and failures, and scores
`1 - failed/total` (clamped below at `0`, `1` when no checks ran).
`Option.none` arguments model Python `None`. -/
def validate_prediction_result (result : Option PyDict) (cfg : Option AssertionsCfg)
    (rx : RegexOracle) : ValidateOut :=
  let data := result.getD []
  let mw := metricWeightOf cfg
  if ¬ ((cfg.map (fun c => c.enabled)).getD false) then
    { result := data, assertionsPassed := true, assertionErrors := [],
      assertionMode := "fail_fast", assertionScore := 1,
      checksTotal := 0, checksFailed := 0, metricWeight := mw }
  else
    let c := cfg.getD {}
    let mode0 := pyLower (pyStrip c.mode)
    let mode1 := if mode0 = "" then "fail_fast" else mode0
    let mode := if mode1 = "fail_fast" ∨ mode1 = "warn_only" then mode1 else "fail_fast"
    let r1 := requiredChecks data c.requiredFields
    let r2 := nonEmptyChecks data c.nonEmptyFields
    let r3 := enumChecks data c.enumRules
    let r4 := maxLengthChecks data c.maxLengthRules
    let r5 := regexChecks rx data c.customRegexRules
    let errors := r1.1 ++ r2.1 ++ r3.1 ++ r4.1 ++ r5.1
    let total := r1.2.1 + r2.2.1 + r3.2.1 + r4.2.1 + r5.2.1
    let failed := r1.2.2 + r2.2.2 + r3.2.2 + r4.2.2 + r5.2.2
    let score := if total = 0 then 1 else max 0 (1 - (failed : ℚ) / (total : ℚ))
    { result := data, assertionsPassed := errors.isEmpty,
      assertionErrors := errors, assertionMode := mode, assertionScore := score,
      checksTotal := total, checksFailed := failed, metricWeight := mw }

/-- A regex oracle that reports a match for every pattern. -/
def rxTrue : RegexOracle := fun _ _ => Except.ok true

theorem requiredChecks_spec (data : PyDict) (fs : List String) :
    (requiredChecks data fs).1.length = (requiredChecks data fs).2.2 ∧
    (requiredChecks data fs).2.2 ≤ (requiredChecks data fs).2.1 := by
  induction fs with
  | nil => simp [requiredChecks]
  | cons f rest ih =>
    rcases hr : requiredChecks data rest with ⟨es, t, k⟩
    rw [hr] at ih
    simp only [requiredChecks, hr]
    split <;> simp_all <;> omega

theorem nonEmptyChecks_spec (data : PyDict) (fs : List String) :
    (nonEmptyChecks data fs).1.length = (nonEmptyChecks data fs).2.2 ∧
    (nonEmptyChecks data fs).2.2 ≤ (nonEmptyChecks data fs).2.1 := by
  induction fs with
  | nil => simp [nonEmptyChecks]
  | cons f rest ih =>
    rcases hr : nonEmptyChecks data rest with ⟨es, t, k⟩
    rw [hr] at ih
    simp only [nonEmptyChecks, hr]
    split <;> simp_all <;> omega

theorem enumChecks_spec (data : PyDict) (rules : List (String × List PyVal)) :
    (enumChecks data rules).1.length = (enumChecks data rules).2.2 ∧
    (enumChecks data rules).2.2 ≤ (enumChecks data rules).2.1 := by
  induction rules with
  | nil => simp [enumChecks]
  | cons r rest ih =>
    rcases hr : enumChecks data rest with ⟨es, t, k⟩
    rw [hr] at ih
    obtain ⟨f, allowed⟩ := r
    simp only [enumChecks, hr]
    split
    · simp_all
    · split <;> simp_all <;> omega

theorem maxLengthChecks_spec (data : PyDict) (rules : List (String × PyVal)) :
    (maxLengthChecks data rules).1.length = (maxLengthChecks data rules).2.2 ∧
    (maxLengthChecks data rules).2.2 ≤ (maxLengthChecks data rules).2.1 := by
  induction rules with
  | nil => simp [maxLengthChecks]
  | cons r rest ih =>
    rcases hr : maxLengthChecks data rest with ⟨es, t, k⟩
    rw [hr] at ih
    obtain ⟨f, limit⟩ := r
    simp only [maxLengthChecks, hr]
    split
    · simp_all
    · split <;> simp_all <;> omega

theorem regexChecks_spec (rx : RegexOracle) (data : PyDict) (rules : List (String × String)) :
    (regexChecks rx data rules).1.length = (regexChecks rx data rules).2.2 ∧
    (regexChecks rx data rules).2.2 ≤ (regexChecks rx data rules).2.1 := by
  induction rules with
  | nil => simp [regexChecks]
  | cons r rest ih =>
    rcases hr : regexChecks rx data rest with ⟨es, t, k⟩
    rw [hr] at ih
    obtain ⟨f, pat⟩ := r
    simp only [regexChecks, hr]
    split
    · simp_all
    · split
      · split <;> simp_all <;> omega
      · simp_all
        omega

theorem validate_disabled_proj (result : Option PyDict) (cfg : Option AssertionsCfg)
    (rx : RegexOracle) (h : (cfg.map (fun c => c.enabled)).getD false = false) :
    validate_prediction_result result cfg rx =
      { result := result.getD [], assertionsPassed := true, assertionErrors := [],
        assertionMode := "fail_fast", assertionScore := 1,
        checksTotal := 0, checksFailed := 0, metricWeight := metricWeightOf cfg } := by
  simp [validate_prediction_result, h]

theorem validate_enabled_proj (result : Option PyDict) (c : AssertionsCfg)
    (rx : RegexOracle) (he : c.enabled = true) :
    (validate_prediction_result result (Option.some c) rx).checksTotal =
      (requiredChecks (result.getD []) c.requiredFields).2.1 +
      (nonEmptyChecks (result.getD []) c.nonEmptyFields).2.1 +
      (enumChecks (result.getD []) c.enumRules).2.1 +
      (maxLengthChecks (result.getD []) c.maxLengthRules).2.1 +
      (regexChecks rx (result.getD []) c.customRegexRules).2.1 ∧
    (validate_prediction_result result (Option.some c) rx).checksFailed =
      (requiredChecks (result.getD []) c.requiredFields).2.2 +
      (nonEmptyChecks (result.getD []) c.nonEmptyFields).2.2 +
      (enumChecks (result.getD []) c.enumRules).2.2 +
      (maxLengthChecks (result.getD []) c.maxLengthRules).2.2 +
      (regexChecks rx (result.getD []) c.customRegexRules).2.2 ∧
    (validate_prediction_result result (Option.some c) rx).assertionErrors =
      (requiredChecks (result.getD []) c.requiredFields).1 ++
      (nonEmptyChecks (result.getD []) c.nonEmptyFields).1 ++
      (enumChecks (result.getD []) c.enumRules).1 ++
      (maxLengthChecks (result.getD []) c.maxLengthRules).1 ++
      (regexChecks rx (result.getD []) c.customRegexRules).1 ∧
    (validate_prediction_result result (Option.some c) rx).assertionScore =
      (if (validate_prediction_result result (Option.some c) rx).checksTotal = 0 then 1
       else max 0 (1 - ((validate_prediction_result result (Option.some c) rx).checksFailed : ℚ) /
         ((validate_prediction_result result (Option.some c) rx).checksTotal : ℚ))) ∧
    (validate_prediction_result result (Option.some c) rx).assertionsPassed =
      (validate_prediction_result result (Option.some c) rx).assertionErrors.isEmpty := by
  simp [validate_prediction_result, he]

theorem score_max_eq (f t : ℕ) (hle : f ≤ t) (ht : t ≠ 0) :
    max 0 (1 - (f : ℚ) / (t : ℚ)) = 1 - (f : ℚ) / (t : ℚ) := by
  have ht' : (0 : ℚ) < (t : ℚ) := by
    exact_mod_cast Nat.pos_of_ne_zero ht
  have hdiv : (f : ℚ) / (t : ℚ) ≤ 1 := by
    rw [div_le_one ht']
    exact_mod_cast hle
  have : (0 : ℚ) ≤ 1 - (f : ℚ) / (t : ℚ) := by linarith
  exact max_eq_right this

/-- C2: for every result map and assertion configuration,
`validate_prediction_result` applies the rule families in the fixed
order required-field → non-empty → enum → max-length → regex (its error
list is the concatenation of the per-family error lists and its check
count the sum of the per-family counts), its failure count never
exceeds its check count, its error list has one entry per failed check,
and `assertion_score = 1 - checks_failed / checks_total`, with
`assertion_score = 1` and `assertions_passed = true` whenever zero
checks were performed — in particular for an enabled configuration with
zero configured rules. -/
theorem validate_prediction_result_spec (result : Option PyDict)
    (cfg : Option AssertionsCfg) (rx : RegexOracle) :
    (validate_prediction_result result cfg rx).checksFailed ≤
      (validate_prediction_result result cfg rx).checksTotal ∧
    (validate_prediction_result result cfg rx).assertionScore =
      (if (validate_prediction_result result cfg rx).checksTotal = 0 then 1
       else 1 - ((validate_prediction_result result cfg rx).checksFailed : ℚ) /
         ((validate_prediction_result result cfg rx).checksTotal : ℚ)) ∧
    (validate_prediction_result result cfg rx).assertionErrors.length =
      (validate_prediction_result result cfg rx).checksFailed ∧
    ((validate_prediction_result result cfg rx).checksTotal = 0 →
      (validate_prediction_result result cfg rx).assertionScore = 1 ∧
      (validate_prediction_result result cfg rx).assertionsPassed = true) ∧
    (∀ c, cfg = Option.some c → c.enabled = true →
      (validate_prediction_result result cfg rx).assertionErrors =
        (requiredChecks (result.getD []) c.requiredFields).1 ++
        (nonEmptyChecks (result.getD []) c.nonEmptyFields).1 ++
        (enumChecks (result.getD []) c.enumRules).1 ++
        (maxLengthChecks (result.getD []) c.maxLengthRules).1 ++
        (regexChecks rx (result.getD []) c.customRegexRules).1) ∧
    (∀ c, cfg = Option.some c → c.enabled = true →
      c.requiredFields = [] → c.nonEmptyFields = [] → c.enumRules = [] →
      c.maxLengthRules = [] → c.customRegexRules = [] →
      (validate_prediction_result result cfg rx).checksTotal = 0 ∧
      (validate_prediction_result result cfg rx).assertionScore = 1 ∧
      (validate_prediction_result result cfg rx).assertionsPassed = true) := by
  by_cases hE : (cfg.map (fun c => c.enabled)).getD false = true
  · obtain ⟨c, rfl⟩ : ∃ c, cfg = Option.some c := by
      cases cfg with
      | none => simp at hE
      | some c => exact ⟨c, rfl⟩
    have he : c.enabled = true := by simpa using hE
    obtain ⟨hT, hF, hErr, hScore, hPass⟩ := validate_enabled_proj result c rx he
    have h1 := requiredChecks_spec (result.getD []) c.requiredFields
    have h2 := nonEmptyChecks_spec (result.getD []) c.nonEmptyFields
    have h3 := enumChecks_spec (result.getD []) c.enumRules
    have h4 := maxLengthChecks_spec (result.getD []) c.maxLengthRules
    have h5 := regexChecks_spec rx (result.getD []) c.customRegexRules
    have hle : (validate_prediction_result result (Option.some c) rx).checksFailed ≤
        (validate_prediction_result result (Option.some c) rx).checksTotal := by
      rw [hT, hF]; omega
    have hlen : (validate_prediction_result result (Option.some c) rx).assertionErrors.length =
        (validate_prediction_result result (Option.some c) rx).checksFailed := by
      rw [hErr, hF]
      simp only [List.length_append]
      omega
    have hscore : (validate_prediction_result result (Option.some c) rx).assertionScore =
        (if (validate_prediction_result result (Option.some c) rx).checksTotal = 0 then 1
         else 1 - ((validate_prediction_result result (Option.some c) rx).checksFailed : ℚ) /
           ((validate_prediction_result result (Option.some c) rx).checksTotal : ℚ)) := by
      rw [hScore]
      by_cases h0 : (validate_prediction_result result (Option.some c) rx).checksTotal = 0
      · simp [h0]
      · simp only [h0, if_false]
        exact score_max_eq _ _ hle h0
    have hzero : (validate_prediction_result result (Option.some c) rx).checksTotal = 0 →
        (validate_prediction_result result (Option.some c) rx).assertionScore = 1 ∧
        (validate_prediction_result result (Option.some c) rx).assertionsPassed = true := by
      intro h0
      refine ⟨by rw [hscore]; simp [h0], ?_⟩
      rw [hPass]
      have : (validate_prediction_result result (Option.some c) rx).assertionErrors.length = 0 := by
        rw [hlen]
        omega
      rw [List.eq_nil_of_length_eq_zero this]
      rfl
    refine ⟨hle, hscore, hlen, hzero, ?_, ?_⟩
    · intro c' hc' _
      obtain rfl : c = c' := by injection hc'
      exact hErr
    · intro c' hc' _ e1 e2 e3 e4 e5
      obtain rfl : c = c' := by injection hc'
      have h0 : (validate_prediction_result result (Option.some c) rx).checksTotal = 0 := by
        rw [hT, e1, e2, e3, e4, e5]
        simp [requiredChecks, nonEmptyChecks, enumChecks, maxLengthChecks, regexChecks]
      exact ⟨h0, hzero h0⟩
  · have h : (cfg.map (fun c => c.enabled)).getD false = false := by
      simpa using hE
    rw [validate_disabled_proj result cfg rx h]
    refine ⟨by simp, by simp, by simp, by simp, ?_, ?_⟩
    · intro c hc he
      exfalso
      subst hc
      simp [he] at h
    · intro c hc he _ _ _ _ _
      exfalso
      subst hc
      simp [he] at h

/-- Witness for C2 at a concrete enabled configuration with zero
configured rules: zero checks, score 1, assertions passed. -/
theorem validate_prediction_result_spec_witness :
    (validate_prediction_result (Option.some [("summary", PyVal.str "ok")])
      (Option.some { enabled := true }) rxTrue).checksTotal = 0 ∧
    (validate_prediction_result (Option.some [("summary", PyVal.str "ok")])
      (Option.some { enabled := true }) rxTrue).assertionScore = 1 ∧
    (validate_prediction_result (Option.some [("summary", PyVal.str "ok")])
      (Option.some { enabled := true }) rxTrue).assertionsPassed = true :=
  (validate_prediction_result_spec (Option.some [("summary", PyVal.str "ok")])
      (Option.some { enabled := true }) rxTrue).2.2.2.2.2
    { enabled := true } rfl rfl rfl rfl rfl rfl rfl

/-- C10 counterexample: with `required_fields=["b"]` and
`non_empty=["a"]` against an empty result map, the absent `non_empty`
field still counts one (passing) check: 2 checks total, 1 failed, score
1/2 — where the claim (no check for an absent `non_empty` field)
predicts 1 check and score 0. -/
theorem validate_missing_nonempty_counts_check :
    (validate_prediction_result (Option.some [])
      (Option.some { enabled := true, requiredFields := ["b"], nonEmptyFields := ["a"] })
      rxTrue).checksTotal = 2 ∧
    (validate_prediction_result (Option.some [])
      (Option.some { enabled := true, requiredFields := ["b"], nonEmptyFields := ["a"] })
      rxTrue).checksFailed = 1 ∧
    (validate_prediction_result (Option.some [])
      (Option.some { enabled := true, requiredFields := ["b"], nonEmptyFields := ["a"] })
      rxTrue).assertionScore = 1 / 2 := by
  refine ⟨rfl, rfl, ?_⟩
  show max 0 (1 - (1 : ℚ) / 2) = 1 / 2
  norm_num

/-- C10 (amended): a field listed in `enum`, `max_length` or
`custom_regex` that is absent from the result map contributes no check
and no failure; a field listed in `non_empty` that is absent contributes
one check but no failure; a field listed in `required_fields` that is
absent contributes one check, one failure and one error. -/
theorem missing_field_rule_skip (data : PyDict) (f : String)
    (h : hasKey data f = false) :
    (∀ (allowed : List PyVal) rest,
      enumChecks data ((f, allowed) :: rest) = enumChecks data rest) ∧
    (∀ (limit : PyVal) rest,
      maxLengthChecks data ((f, limit) :: rest) = maxLengthChecks data rest) ∧
    (∀ (rx : RegexOracle) (pat : String) rest,
      regexChecks rx data ((f, pat) :: rest) = regexChecks rx data rest) ∧
    (∀ rest, (nonEmptyChecks data (f :: rest)).1 = (nonEmptyChecks data rest).1 ∧
      (nonEmptyChecks data (f :: rest)).2.1 = (nonEmptyChecks data rest).2.1 + 1 ∧
      (nonEmptyChecks data (f :: rest)).2.2 = (nonEmptyChecks data rest).2.2) ∧
    (∀ rest, (requiredChecks data (f :: rest)).1 =
        ("Missing required field: " ++ f) :: (requiredChecks data rest).1 ∧
      (requiredChecks data (f :: rest)).2.1 = (requiredChecks data rest).2.1 + 1 ∧
      (requiredChecks data (f :: rest)).2.2 = (requiredChecks data rest).2.2 + 1) := by
  refine ⟨?_, ?_, ?_, ?_, ?_⟩
  · intro allowed rest
    rcases hr : enumChecks data rest with ⟨es, t, k⟩
    simp [enumChecks, hr, h]
  · intro limit rest
    rcases hr : maxLengthChecks data rest with ⟨es, t, k⟩
    simp [maxLengthChecks, hr, h]
  · intro rx pat rest
    rcases hr : regexChecks rx data rest with ⟨es, t, k⟩
    simp [regexChecks, hr, h]
  · intro rest
    rcases hr : nonEmptyChecks data rest with ⟨es, t, k⟩
    simp [nonEmptyChecks, hr, h]
  · intro rest
    rcases hr : requiredChecks data rest with ⟨es, t, k⟩
    simp [requiredChecks, hr, h]

/-- Witness for the amended C10 at a concrete empty result map. -/
theorem missing_field_rule_skip_witness :
    hasKey [] "a" = false ∧
    enumChecks [] [("a", [PyVal.str "x"])] = enumChecks [] [] ∧
    (nonEmptyChecks [] ["a"]).2.1 = (nonEmptyChecks [] []).2.1 + 1 :=
  ⟨rfl, (missing_field_rule_skip [] "a" rfl).1 [PyVal.str "x"] [],
    ((missing_field_rule_skip [] "a" rfl).2.2.2.1 []).2.1⟩

/-!
## `is_valid` assembly in `DSPyRunner.run` (dspy_runner.py lines 1856-1894)
-/

/-- The per-value predicate of the `is_valid` computation: a string
counts when its strip is non-empty, any non-string value counts when it
is not `None`. -/
def validValue : PyVal → Bool
  | .str s => pyStrip s ≠ ""
  | .none => false
  | _ => true

/-- `result["is_valid"] = any(...)` over the assembled result values. -/
def computeIsValid (result : PyDict) : Bool :=
  result.any (fun kv => validValue kv.2)

/-- The final `is_valid` value of `DSPyRunner.run`: the any-non-empty
bit, forced to `false` when the assertion payload is present with mode
`fail_fast` and failed assertions. -/
def assembleIsValid (result : PyDict) (payload : Option ValidateOut) : Bool :=
  let isValid := computeIsValid result
  match payload with
  | Option.none => isValid
  | Option.some p =>
      let mode := pyLower (pyStrip p.assertionMode)
      if mode = "fail_fast" ∧ p.assertionsPassed = false then false else isValid

/-- C9: the assembled `is_valid` is `true` exactly when some output
field holds a non-empty string or a non-`None` non-string value, and no
present `fail_fast` assertion payload reports failed assertions. -/
theorem run_is_valid_spec (result : PyDict) (payload : Option ValidateOut) :
    assembleIsValid result payload = true ↔
      ((∃ kv ∈ result, validValue kv.2 = true) ∧
        ∀ p, payload = Option.some p →
          ¬ (pyLower (pyStrip p.assertionMode) = "fail_fast" ∧ p.assertionsPassed = false)) := by
  cases payload with
  | none => simp [assembleIsValid, computeIsValid, List.any_eq_true]
  | some p =>
    by_cases hp : pyLower (pyStrip p.assertionMode) = "fail_fast" ∧ p.assertionsPassed = false
    · simp [assembleIsValid, computeIsValid, hp]
    · simp only [assembleIsValid, computeIsValid, List.any_eq_true, hp, if_false]
      push_neg at hp
      constructor
      · rintro ⟨⟨k, v⟩, hmem, hval⟩
        refine ⟨⟨(k, v), hmem, hval⟩, ?_⟩
        intro q hq
        obtain rfl : p = q := by injection hq
        rintro ⟨hmode, hpass⟩
        exact absurd hpass (hp hmode)
      · rintro ⟨⟨kv, hmem, hval⟩, _⟩
        exact ⟨kv, hmem, hval⟩

/-- Witness for C9: one non-empty output field and no assertion payload
yields `is_valid = true`. -/
theorem run_is_valid_spec_witness :
    assembleIsValid [("answer", PyVal.str "hi")] Option.none = true :=
  (run_is_valid_spec [("answer", PyVal.str "hi")] Option.none).mpr
    ⟨⟨("answer", PyVal.str "hi"), by simp, by decide⟩, by simp⟩

/-!
## `gepa_metric` (dspy_runner.py lines 1322-1395)
-/

/-- Python substring test `needle in hay` on character lists. -/
def prefixOfL : List Char → List Char → Bool
  | [], _ => true
  | _ :: _, [] => false
  | a :: as, b :: bs => a == b && prefixOfL as bs

/-- Python `needle in hay` on strings (contiguous substring; an empty
needle matches everywhere). -/
def strInB (needle hay : String) : Bool :=
  go needle.data hay.data
where
  go (n : List Char) : List Char → Bool
  | [] => n.isEmpty
  | c :: t => prefixOfL n (c :: t) || go n t

/-- Python `s.split()` (split on whitespace runs, dropping empties). -/
def pySplitWs (s : String) : List String :=
  ((splitCharL ' ' (s.data.map (fun c => if c.isWhitespace then ' ' else c))).map
    String.mk).filter (fun t => t ≠ "")

/-- The `str(...).strip().lower()` folding applied to both sides of the
metric comparison. -/
def foldCase (s : String) : String := pyLower (pyStrip s)

/-- Per-field score of `gepa_metric`: fields with empty (folded) gold
are skipped; substring containment in either direction scores 1;
otherwise the token-overlap ratio `|gold ∩ pred| / |gold|` over
whitespace tokens. -/
def fieldQualityScore (g p : String) : Option ℚ :=
  if g = "" then Option.none
  else if strInB g p ∨ strInB p g then Option.some 1
  else
    let gTokens := (pySplitWs g).dedup
    let pTokens := pySplitWs p
    Option.some (if gTokens.isEmpty then 0
      else ((gTokens.filter (fun t => pTokens.contains t)).length : ℚ) / (gTokens.length : ℚ))

/-- `quality_score` of `gepa_metric`: the average of the per-field
scores, `0.5` when no field produced a score. -/
def gepaQualityScore (outputFields : List String) (gold pred : String → String) : ℚ :=
  let scores := outputFields.filterMap
    (fun f => fieldQualityScore (foldCase (gold f)) (foldCase (pred f)))
  if scores.isEmpty then 1 / 2 else scores.sum / (scores.length : ℚ)

/-- Clamp to `[0, 1]` (`min(1.0, max(0.0, x))`). -/
def clamp01 (q : ℚ) : ℚ := min 1 (max 0 q)

/-- `assertion_metric_weight`: the configured `metric_weight` passed
through `float(...)` with fallback `0.3`, clamped to `[0, 1]`. -/
def assertionMetricWeight (w : Option PyVal) : ℚ :=
  clamp01 ((w.bind pyFloat).getD (3 / 10))

/-- The blended value returned by `gepa_metric`: the assertion score
(`1.0` when the validation hook is absent) is clamped, then blended as
`(1 - w) * quality + w * assertion`. -/
def gepaMetric (outputFields : List String) (gold pred : String → String)
    (assertionScore : Option ℚ) (w : ℚ) : ℚ :=
  let quality := gepaQualityScore outputFields gold pred
  let a := clamp01 (assertionScore.getD 1)
  (1 - w) * quality + w * a

theorem prefixOfL_self (l : List Char) : prefixOfL l l = true := by
  induction l with
  | nil => rfl
  | cons c t ih => simp [prefixOfL, ih]

theorem strInB_self (s : String) : strInB s s = true := by
  unfold strInB
  cases hd : s.data with
  | nil => simp [strInB.go, hd]
  | cons c t =>
    have : prefixOfL (c :: t) (c :: t) = true := prefixOfL_self _
    simp [strInB.go, this]

theorem list_sum_ones (l : List ℚ) (h : ∀ x ∈ l, x = 1) : l.sum = (l.length : ℚ) := by
  induction l with
  | nil => simp
  | cons x t ih =>
    have hx : x = 1 := h x (by simp)
    have ht : ∀ y ∈ t, y = (1 : ℚ) := fun y hy => h y (by simp [hy])
    simp [hx, ih ht]
    ring

theorem fieldQualityScore_self (g : String) (hg : g ≠ "") :
    fieldQualityScore g g = Option.some 1 := by
  simp [fieldQualityScore, hg, strInB_self]

/-- C3 counterexample: with a single declared output field whose gold
and prediction are the identical empty string, the quality score of
`gepa_metric` is 0.5 (the empty-gold field is skipped and no field
scores), not the 1.0 the claim requires whenever gold and prediction
are identical case-insensitively. -/
theorem gepa_quality_identical_not_one :
    gepaQualityScore ["answer"] (fun _ => "") (fun _ => "") = 1 / 2 ∧
    ¬ gepaQualityScore ["answer"] (fun _ => "") (fun _ => "") = 1 := by
  have h : gepaQualityScore ["answer"] (fun _ => "") (fun _ => "") = 1 / 2 := rfl
  refine ⟨h, ?_⟩
  rw [h]
  norm_num

/-- C3 (amended): per-field scores are computed only for fields whose
folded gold value is non-empty (quality defaults to 0.5 when no field
scores); whenever gold and prediction agree case-insensitively on every
declared output field and at least one folded gold value is non-empty,
the quality score is 1; the returned metric is
`(1 - w) * quality + w * clamp01(assertion)` with the configured weight
defaulting to 0.3. -/
theorem gepa_metric_spec (fields : List String) (gold pred : String → String)
    (a : Option ℚ) (w : ℚ)
    (hid : ∀ f ∈ fields, foldCase (gold f) = foldCase (pred f))
    (hne : ∃ f ∈ fields, foldCase (gold f) ≠ "") :
    gepaQualityScore fields gold pred = 1 ∧
    gepaMetric fields gold pred a w =
      (1 - w) * gepaQualityScore fields gold pred + w * clamp01 (a.getD 1) ∧
    assertionMetricWeight Option.none = 3 / 10 := by
  have hq : gepaQualityScore fields gold pred = 1 := by
    unfold gepaQualityScore
    set scores := fields.filterMap
      (fun f => fieldQualityScore (foldCase (gold f)) (foldCase (pred f))) with hs
    have hmem : ∀ x ∈ scores, x = (1 : ℚ) := by
      intro x hx
      rw [hs, List.mem_filterMap] at hx
      obtain ⟨f, hf, hfx⟩ := hx
      rw [hid f hf] at hfx
      by_cases hg : foldCase (pred f) = ""
      · rw [hg] at hfx
        simp [fieldQualityScore] at hfx
      · rw [fieldQualityScore_self _ hg] at hfx
        exact (Option.some.inj hfx).symm
    have hnonnil : scores ≠ [] := by
      obtain ⟨f, hf, hg⟩ := hne
      intro hnil
      rw [hs, List.filterMap_eq_nil_iff] at hnil
      have hnone := hnil f hf
      rw [hid f hf] at hnone hg
      rw [fieldQualityScore_self _ hg] at hnone
      exact Option.noConfusion hnone
    have hlen : scores.length ≠ 0 := fun h => hnonnil (List.eq_nil_of_length_eq_zero h)
    have hsum := list_sum_ones scores hmem
    have hempty : scores.isEmpty = false := by
      cases hcase : scores with
      | nil => exact absurd hcase hnonnil
      | cons y ys => rfl
    rw [if_neg (by simp [hempty]), hsum]
    exact div_self (by exact_mod_cast hlen)
  exact ⟨hq, rfl, by norm_num [assertionMetricWeight, clamp01]⟩

/-- Witness for the amended C3 at a concrete case-insensitively
identical gold/prediction pair. -/
theorem gepa_metric_spec_witness :
    gepaQualityScore ["answer"] (fun _ => "Paris") (fun _ => "PARIS") = 1 ∧
    assertionMetricWeight Option.none = 3 / 10 :=
  ⟨(gepa_metric_spec ["answer"] (fun _ => "Paris") (fun _ => "PARIS") Option.none (3 / 10)
      (fun _ _ => rfl) ⟨"answer", by simp, by decide⟩).1,
   (gepa_metric_spec ["answer"] (fun _ => "Paris") (fun _ => "PARIS") Option.none (3 / 10)
      (fun _ _ => rfl) ⟨"answer", by simp, by decide⟩).2.2⟩

/-!
## `DSPyRunner._resolve_dspy_lm_params` (dspy_runner.py lines 653-808)

The process environment is modelled as an association list of set
variables; `os.getenv` becomes lookup.  The resolver is split at its
two sequence points: `normalizeProviderModel` covers the pure
provider/model normalization (lines 663-742), `resolveProviderModel`
adds the cloud-mode and local-authorization guards (lines 744-755), and
`buildLMParams` builds the constructor parameters per provider family
(lines 757-808).  A `lm_config` that is truthy but not a dict would
raise an `AttributeError` in Python; it is modelled as the empty
config.
-/

/-- The process environment: variables that are set, with their values. -/
abbrev Env := List (String × String)

/-- `os.getenv(k)`. -/
def envGet (env : Env) (k : String) : Option String :=
  (env.find? (fun kv => kv.1 == k)).map (fun kv => kv.2)

/-- `os.getenv(k, d)`. -/
def envGetD (env : Env) (k d : String) : String :=
  (envGet env k).getD d

/-- A Python `a or b or ... or {}` chain over optional dict lookups:
the first truthy value, defaulting to the empty dict. -/
def orChain : List (Option PyVal) → PyVal
  | [] => .dict []
  | v :: rest =>
      match v with
      | Option.some x => if pyTruthy x then x else orChain rest
      | Option.none => orChain rest

/-- View a value as a dict (the only shape the resolver then reads). -/
def asDict : PyVal → PyDict
  | .dict xs => xs
  | _ => []

/-- `runtime_mode = (runtime_mode or "auto").lower()` (line 708). -/
def normalizedRuntimeMode (runtimeMode : String) : String :=
  if runtimeMode = "" then "auto" else pyLower runtimeMode

/-- Everything after the first `/` (Python `s.split("/", 1)[1]`, used
only when a `/` is present). -/
def afterFirstSlash (s : String) : String :=
  String.mk ((s.data.dropWhile (fun c => c != '/')).drop 1)

/-- The last `/`-separated component (Python `s.split("/")[-1]`). -/
def lastSlashComponent (s : String) : String :=
  (splitCharS '/' s).getLastD ""

/-- Lines 663-742: merge the playbook `model`/`language_model`/`llm`
block, the `reasoning` overrides, the CLI overrides and the
environment defaults into the pre-guard `(provider, model,
temperature, max_tokens)`. -/
def normalizeProviderModel (env : Env) (specData : PyDict) (purpose : String)
    (modelOverride providerOverride : Option String) (runtimeMode : String) :
    String × String × PyVal × PyVal :=
  let lmConfig := asDict (orChain
    [getKey specData "model", getKey specData "language_model", getKey specData "llm"])
  let model := pyStrip (pyStr (getKeyD lmConfig "model" (.str "")))
  let hasProviderInPlaybook := hasKey lmConfig "provider"
  let provider := pyLower (pyStrip (pyStr (getKeyD lmConfig "provider" (.str "ollama"))))
  let temperature := getKeyD lmConfig "temperature" (.num (7 / 10))
  let maxTokens := getKeyD lmConfig "max_tokens" (.int 2048)
  let reasoningCfg := asDict (getKeyD specData "reasoning" (.dict []))
  let temperature :=
    if hasKey reasoningCfg "temperature" ∧ ¬ isPyNone (getKey reasoningCfg "temperature")
    then getKeyD reasoningCfg "temperature" .none else temperature
  let maxTokens :=
    if hasKey reasoningCfg "max_tokens" ∧ ¬ isPyNone (getKey reasoningCfg "max_tokens")
    then getKeyD reasoningCfg "max_tokens" .none else maxTokens
  let localTaskDefault := envGetD env "SUPEROPTIX_DSPY_TASK_MODEL" "llama3.1:8b"
  let localTeacherDefault := envGetD env "SUPEROPTIX_DSPY_TEACHER_MODEL" "llama3.1:8b"
  let cloudTaskDefault := envGetD env "SUPEROPTIX_DSPY_CLOUD_TASK_MODEL" "gemini-2.5-flash-lite"
  let cloudTeacherDefault := envGetD env "SUPEROPTIX_DSPY_CLOUD_TEACHER_MODEL" "gemini-2.5-flash"
  let provider :=
    match providerOverride with
    | Option.some s => if s ≠ "" then pyLower (pyStrip s) else provider
    | Option.none => provider
  let pm : String × String :=
    match modelOverride with
    | Option.some s =>
        if s ≠ "" then
          let m := pyStrip s
          if startsWithS m "ollama_chat/" ∨ startsWithS m "ollama/" then ("ollama", m)
          else if startsWithS m "gemini/" ∨ startsWithS m "models/" then ("google-genai", m)
          else (provider, m)
        else (provider, model)
    | Option.none => (provider, model)
  let provider := pm.1
  let model := pm.2
  let rm := normalizedRuntimeMode runtimeMode
  let provider := if rm = "local" ∧ provider = "" then "ollama" else provider
  let overrideFalsy : Bool :=
    match providerOverride with
    | Option.some s => s == ""
    | Option.none => true
  let pm2 : String × String :=
    if rm = "cloud" ∧ overrideFalsy = true ∧ hasProviderInPlaybook = false ∧
        (provider = "" ∨ provider = "ollama" ∨ provider = "local") then
      ("google-genai",
       if model = "" then (if purpose = "teacher" then cloudTeacherDefault else cloudTaskDefault)
       else model)
    else (provider, model)
  let provider := pm2.1
  let model := pm2.2
  let pm3 : String × String :=
    if model = "" then
      if provider = "ollama" ∨ provider = "local" ∨ provider = "" then
        ("ollama", if purpose = "teacher" then localTeacherDefault else localTaskDefault)
      else (provider, if purpose = "teacher" then cloudTeacherDefault else cloudTaskDefault)
    else (provider, model)
  (pm3.1, pm3.2, temperature, maxTokens)

/-- Lines 744-755: the cloud-mode guard against local-only providers,
the `google` alias normalization, and the local-authorization guard. -/
def resolveProviderModel (env : Env) (specData : PyDict) (allowLocalOllama : Bool)
    (purpose : String) (modelOverride providerOverride : Option String)
    (runtimeMode : String) : Except String (String × String × PyVal × PyVal) :=
  let n := normalizeProviderModel env specData purpose modelOverride providerOverride runtimeMode
  let rm := normalizedRuntimeMode runtimeMode
  if rm = "cloud" ∧ (n.1 = "ollama" ∨ n.1 = "local") then
    Except.error
      "Cloud mode cannot use local provider. Use --local or choose a cloud provider."
  else
    let provider := if n.1 = "google" ∨ n.1 = "google-genai" then "google-genai" else n.1
    if provider = "ollama" ∧ allowLocalOllama = false then
      Except.error
        "Local Ollama provider requires local mode compilation. Recompile with --local (or --local-ollama)."
    else Except.ok (provider, n.2.1, n.2.2.1, n.2.2.2)

/-- The resolved DSPy LM constructor parameters. -/
structure LMParams where
  model_name : String
  api_key : String
  temperature : PyVal
  max_tokens : PyVal

/-- The provider → credential-variable map of lines 788-796. -/
def apiKeyEnvList : List (String × String) :=
  [("openai", "OPENAI_API_KEY"), ("anthropic", "ANTHROPIC_API_KEY"),
   ("azure", "AZURE_OPENAI_API_KEY"), ("mistral", "MISTRAL_API_KEY"),
   ("cohere", "COHERE_API_KEY"), ("groq", "GROQ_API_KEY"),
   ("deepseek", "DEEPSEEK_API_KEY")]

/-- `api_key_env_map.get(provider)`. -/
def apiKeyEnvMap (provider : String) : Option String :=
  (apiKeyEnvList.find? (fun kv => kv.1 == provider)).map (fun kv => kv.2)

/-- Lines 757-808: build the LM constructor parameters for the resolved
provider, enforcing per-provider credentials. -/
def buildLMParams (env : Env) (provider model : String)
    (temperature maxTokens : PyVal) : Except String LMParams :=
  if provider = "ollama" then
    Except.ok
      { model_name := if startsWithS model "ollama_chat/" then model else "ollama_chat/" ++ model,
        api_key := "", temperature := temperature, max_tokens := maxTokens }
  else if provider = "google-genai" then
    let g := envGetD env "GEMINI_API_KEY" ""
    let apiKey := if g ≠ "" then g else envGetD env "GOOGLE_API_KEY" ""
    if apiKey = "" then
      Except.error "Missing GEMINI_API_KEY/GOOGLE_API_KEY. Set one before running this cloud pipeline."
    else
      let modelStr := pyStrip model
      let modelName :=
        if startsWithS modelStr "gemini/" then modelStr
        else if startsWithS modelStr "models/" then "gemini/" ++ afterFirstSlash modelStr
        else if strInB "/" modelStr then "gemini/" ++ lastSlashComponent modelStr
        else "gemini/" ++ modelStr
      Except.ok
        { model_name := modelName, api_key := apiKey,
          temperature := temperature, max_tokens := maxTokens }
  else
    let apiKeyEnv := apiKeyEnvMap provider
    let apiKey : Option String :=
      match apiKeyEnv with
      | Option.some v => envGet env v
      | Option.none => Option.some (envGetD env "OPENAI_API_KEY" "")
    if apiKeyEnv.isSome ∧ apiKey.getD "" = "" then
      Except.error ("Missing " ++ apiKeyEnv.getD "" ++ ". Set it before running this cloud pipeline.")
    else
      Except.ok
        { model_name := if strInB "/" model then model else provider ++ "/" ++ model,
          api_key := apiKey.getD "",
          temperature := temperature, max_tokens := maxTokens }

/-- `_resolve_dspy_lm_params` end to end: guard-checked provider/model
resolution followed by parameter construction. -/
def resolve_dspy_lm_params (env : Env) (specData : PyDict) (allowLocalOllama : Bool)
    (purpose : String) (modelOverride providerOverride : Option String)
    (runtimeMode : String) : Except String LMParams :=
  match resolveProviderModel env specData allowLocalOllama purpose
      modelOverride providerOverride runtimeMode with
  | Except.error e => Except.error e
  | Except.ok (provider, model, t, mt) => buildLMParams env provider model t mt

/-- C1: with `runtime_mode = "cloud"`, a provider/model resolution that
returns only ever returns a provider different from the local-only
providers `ollama` and `local` (the line-744 guard raises instead), and
a failed provider/model resolution makes the whole parameter resolution
raise, so returned parameters never come from a local-only provider. -/
theorem cloud_never_local_provider (env : Env) (specData : PyDict) (allow : Bool)
    (purpose : String) (mo po : Option String) (rm : String) (hrm : rm = "cloud") :
    (∀ pm, resolveProviderModel env specData allow purpose mo po rm = Except.ok pm →
      pm.1 ≠ "ollama" ∧ pm.1 ≠ "local") ∧
    (∀ e, resolveProviderModel env specData allow purpose mo po rm = Except.error e →
      resolve_dspy_lm_params env specData allow purpose mo po rm = Except.error e) := by
  subst hrm
  constructor
  · intro pm hres
    simp only [resolveProviderModel] at hres
    split at hres
    · exact absurd hres (by simp)
    · next h1 =>
      have h1' : ¬ (normalizeProviderModel env specData purpose mo po "cloud").1 = "ollama" ∧
          ¬ (normalizeProviderModel env specData purpose mo po "cloud").1 = "local" := by
        constructor <;> intro hx <;> exact h1 ⟨rfl, by simp [hx]⟩
      split at hres
      · rw [if_neg (fun hcon => absurd hcon.1 (by decide))] at hres
        have hpm : pm.1 = "google-genai" := by
          rw [← Except.ok.inj hres]
        rw [hpm]
        exact ⟨by decide, by decide⟩
      · split at hres
        · exact absurd hres (by simp)
        · have hpm := Except.ok.inj hres
          rw [← hpm]
          exact h1'
  · intro e hres
    simp only [resolve_dspy_lm_params, hres]

/-- Witness for C1 at a concrete cloud resolution that succeeds: the
resolved provider is `google-genai`, not a local-only provider. -/
theorem cloud_never_local_provider_witness :
    resolveProviderModel [("GEMINI_API_KEY", "k")] [] false "task"
        Option.none Option.none "cloud" =
      Except.ok ("google-genai", "gemini-2.5-flash-lite", PyVal.num (7 / 10), PyVal.int 2048) ∧
    (("google-genai", "gemini-2.5-flash-lite", PyVal.num (7 / 10), PyVal.int 2048) :
        String × String × PyVal × PyVal).1 ≠ "ollama" ∧
    (("google-genai", "gemini-2.5-flash-lite", PyVal.num (7 / 10), PyVal.int 2048) :
        String × String × PyVal × PyVal).1 ≠ "local" :=
  ⟨rfl,
    (cloud_never_local_provider [("GEMINI_API_KEY", "k")] [] false "task"
        Option.none Option.none "cloud" rfl).1
      ("google-genai", "gemini-2.5-flash-lite", PyVal.num (7 / 10), PyVal.int 2048) rfl⟩

/-- C8 counterexample: a playbook provider spelled `local` with an
explicit model resolves and returns parameters even though the
local-compilation flag is absent — the line-752 guard only checks the
exact provider string `ollama`. -/
theorem resolver_returns_for_local_provider_without_flag :
    (resolveProviderModel []
        [("model", PyVal.dict [("provider", PyVal.str "local"), ("model", PyVal.str "llama3")])]
        false "task" Option.none Option.none "auto").toOption.map (fun pm => pm.1) =
      Option.some "local" ∧
    resolve_dspy_lm_params []
        [("model", PyVal.dict [("provider", PyVal.str "local"), ("model", PyVal.str "llama3")])]
        false "task" Option.none Option.none "auto" =
      Except.ok { model_name := "local/llama3", api_key := "",
                  temperature := PyVal.num (7 / 10), max_tokens := PyVal.int 2048 } :=
  ⟨rfl, rfl⟩

/-- C8 (amended): with the local-compilation flag absent
(`allow_local_ollama = false`), a provider/model resolution never
returns the provider `ollama` — resolving to it raises the
authorization error; the guard keys on the exact string `ollama`, so
the spelling `local` with an explicit model is not covered. -/
theorem resolver_flagless_never_returns_ollama (env : Env) (specData : PyDict)
    (purpose : String) (mo po : Option String) (rm : String) :
    ∀ pm, resolveProviderModel env specData false purpose mo po rm = Except.ok pm →
      pm.1 ≠ "ollama" := by
  intro pm hres
  simp only [resolveProviderModel] at hres
  split at hres
  · exact absurd hres (by simp)
  · split at hres
    · rw [if_neg (fun hcon => absurd hcon.1 (by decide))] at hres
      have hpm : pm.1 = "google-genai" := by
        rw [← Except.ok.inj hres]
      rw [hpm]
      decide
    · split at hres
      · exact absurd hres (by simp)
      · next h2 =>
        have hpm := Except.ok.inj hres
        rw [← hpm]
        intro hx
        refine h2 ⟨hx, ?_⟩
        trivial

/-- Witness for the amended C8: a concrete flagless resolution that
returns; its provider (`local`) is not `ollama`. -/
theorem resolver_flagless_never_returns_ollama_witness :
    resolveProviderModel []
        [("model", PyVal.dict [("provider", PyVal.str "local"), ("model", PyVal.str "llama3")])]
        false "task" Option.none Option.none "auto" =
      Except.ok ("local", "llama3", PyVal.num (7 / 10), PyVal.int 2048) ∧
    (("local", "llama3", PyVal.num (7 / 10), PyVal.int 2048) :
        String × String × PyVal × PyVal).1 ≠ "ollama" :=
  ⟨rfl,
    resolver_flagless_never_returns_ollama []
      [("model", PyVal.dict [("provider", PyVal.str "local"), ("model", PyVal.str "llama3")])]
      "task" Option.none Option.none "auto"
      ("local", "llama3", PyVal.num (7 / 10), PyVal.int 2048) rfl⟩

/-- C7 counterexample: a provider outside the credential map
(`together`) resolves in cloud mode with an empty environment — no
credential variable exists for it, no error is raised, and the
parameters are returned with an empty api key from the
`OPENAI_API_KEY` fallback. -/
theorem unknown_provider_returns_without_credential :
    resolve_dspy_lm_params []
        [("model", PyVal.dict [("provider", PyVal.str "together"), ("model", PyVal.str "mixtral")])]
        false "task" Option.none Option.none "cloud" =
      Except.ok { model_name := "together/mixtral", api_key := "",
                  temperature := PyVal.num (7 / 10), max_tokens := PyVal.int 2048 } ∧
    envGet [] "OPENAI_API_KEY" = Option.none :=
  ⟨rfl, rfl⟩

/-- C7 (amended): providers in the credential map raise the
missing-credential error whenever their specific variable is unset or
empty, and `google-genai` raises when both of its variables are
unset/empty; providers outside the map fall back to `OPENAI_API_KEY`
with an empty default and do not raise. -/
theorem cloud_provider_missing_credential (env : Env) (provider model : String)
    (t mt : PyVal) :
    (∀ v, apiKeyEnvMap provider = Option.some v → envGetD env v "" = "" →
      buildLMParams env provider model t mt =
        Except.error ("Missing " ++ v ++ ". Set it before running this cloud pipeline.")) ∧
    (envGetD env "GEMINI_API_KEY" "" = "" → envGetD env "GOOGLE_API_KEY" "" = "" →
      buildLMParams env "google-genai" model t mt =
        Except.error
          "Missing GEMINI_API_KEY/GOOGLE_API_KEY. Set one before running this cloud pipeline.") := by
  constructor
  · intro v hv he
    have hnp : ¬ provider = "ollama" := by
      intro h
      rw [h, show apiKeyEnvMap "ollama" = Option.none from rfl] at hv
      exact Option.noConfusion hv
    have hng : ¬ provider = "google-genai" := by
      intro h
      rw [h, show apiKeyEnvMap "google-genai" = Option.none from rfl] at hv
      exact Option.noConfusion hv
    simp only [buildLMParams, if_neg hnp, if_neg hng, hv, Option.isSome_some,
      Option.getD_some, true_and]
    rw [if_pos (show (envGet env v).getD "" = "" from he)]
  · intro h1 h2
    simp only [buildLMParams, envGetD] at h1 h2 ⊢
    rw [if_neg (by decide), if_pos (by decide)]
    simp [h1, h2]

/-- Witness for the amended C7: `openai` with an empty environment
raises the missing-credential error naming `OPENAI_API_KEY`. -/
theorem cloud_provider_missing_credential_witness :
    apiKeyEnvMap "openai" = Option.some "OPENAI_API_KEY" ∧
    envGetD [] "OPENAI_API_KEY" "" = "" ∧
    buildLMParams [] "openai" "gpt-4" PyVal.none PyVal.none =
      Except.error "Missing OPENAI_API_KEY. Set it before running this cloud pipeline." :=
  ⟨rfl, rfl,
    (cloud_provider_missing_credential [] "openai" "gpt-4" PyVal.none PyVal.none).1
      "OPENAI_API_KEY" rfl rfl⟩

/-!
## `DSPyRunner._run_program_with_timeout` (dspy_runner.py lines 1088-1118)

The detached daemon worker is abstracted by its observable behaviour at
the orchestrator's `thread.join(timeout)`: whether it has finished by a
given deadline, and the outcome it produces when it finishes.  The
timeout branch only stops waiting — the model carries no kill action on
the worker, matching the cooperative-only semantics of `join`.
-/

/-- `float(os.getenv("SUPEROPTIX_DSPY_PROGRAM_TIMEOUT_SEC", "120"))`
with the `TypeError`/`ValueError` fallback to `120.0`. -/
def programTimeoutSec (env : Env) : ℚ :=
  match pyFloat.parseDecQ (envGetD env "SUPEROPTIX_DSPY_PROGRAM_TIMEOUT_SEC" "120") with
  | Option.some q => q
  | Option.none => 120

/-- What the worker's target produces when it finishes: the program's
prediction, or the exception the program raised. -/
inductive ProgramOutcome where
  | ok (result : PyDict)
  | exc (msg : String)

/-- The worker thread running `program(**kwargs)`, abstracted by
whether it is done by a given deadline and its eventual outcome. -/
structure ProgramRun where
  doneBy : ℚ → Bool
  outcome : ProgramOutcome

/-- What `_run_program_with_timeout` does: return the result, raise the
timeout, or re-raise the program's exception. -/
inductive RunOutcome where
  | ok (result : PyDict)
  | timeout (secs : ℚ)
  | raised (msg : String)

/-- `_run_program_with_timeout`: non-positive deadlines call the
program directly; otherwise the orchestrator waits up to the deadline
and raises `TimeoutError` if the worker has not finished, re-raises the
program's own exception if it failed, and returns its result
otherwise. -/
def run_program_with_timeout (env : Env) (w : ProgramRun) : RunOutcome :=
  let t := programTimeoutSec env
  if t ≤ 0 then
    match w.outcome with
    | .ok r => .ok r
    | .exc e => .raised e
  else if w.doneBy t then
    match w.outcome with
    | .ok r => .ok r
    | .exc e => .raised e
  else .timeout t

/-- The keyword arguments of the program call in `DSPyRunner.run`
(line 1813): a single input field mapped to the query. -/
def programCallKwargs (inputField query : String) : List (String × String) :=
  [(inputField, query)]

/-- C4: the program is called with a single input field under a hard
deadline defaulting to 120 seconds and overridable through
`SUPEROPTIX_DSPY_PROGRAM_TIMEOUT_SEC`; a worker not finished by the
deadline makes the orchestrator raise the timeout (the model keeps the
worker, it is not killed), a finished worker's exception is re-raised
to the caller, and a finished worker's result is returned. -/
theorem run_program_timeout_spec (env : Env) (w : ProgramRun)
    (inputField query : String) :
    (envGet env "SUPEROPTIX_DSPY_PROGRAM_TIMEOUT_SEC" = Option.none →
      programTimeoutSec env = 120) ∧
    (∀ s q, envGet env "SUPEROPTIX_DSPY_PROGRAM_TIMEOUT_SEC" = Option.some s →
      pyFloat.parseDecQ s = Option.some q → programTimeoutSec env = q) ∧
    (0 < programTimeoutSec env → w.doneBy (programTimeoutSec env) = false →
      run_program_with_timeout env w = RunOutcome.timeout (programTimeoutSec env)) ∧
    (∀ m, w.doneBy (programTimeoutSec env) = true → w.outcome = ProgramOutcome.exc m →
      run_program_with_timeout env w = RunOutcome.raised m) ∧
    (∀ r, w.doneBy (programTimeoutSec env) = true → w.outcome = ProgramOutcome.ok r →
      run_program_with_timeout env w = RunOutcome.ok r) ∧
    (programCallKwargs inputField query).length = 1 := by
  refine ⟨?_, ?_, ?_, ?_, ?_, rfl⟩
  · intro h
    simp only [programTimeoutSec, envGetD, h, Option.getD_none]
    rw [show pyFloat.parseDecQ "120" = Option.some (1 * ((120 : ℕ) : ℚ)) from rfl]
    norm_num
  · intro s q hs hq
    simp [programTimeoutSec, envGetD, hs, hq]
  · intro hpos hnd
    have hnle : ¬ programTimeoutSec env ≤ 0 := not_le.mpr hpos
    simp [run_program_with_timeout, hnle, hnd]
  · intro m hd hout
    by_cases hle : programTimeoutSec env ≤ 0
    · simp [run_program_with_timeout, hle, hout]
    · simp [run_program_with_timeout, hle, hd, hout]
  · intro r hd hout
    by_cases hle : programTimeoutSec env ≤ 0
    · simp [run_program_with_timeout, hle, hout]
    · simp [run_program_with_timeout, hle, hd, hout]

/-- Witness for C4: default deadline 120, override to 30, a worker that
never finishes times out at 120, a finished failing worker re-raises. -/
theorem run_program_timeout_spec_witness :
    programTimeoutSec [] = 120 ∧
    programTimeoutSec [("SUPEROPTIX_DSPY_PROGRAM_TIMEOUT_SEC", "30")] = 30 ∧
    run_program_with_timeout [] ⟨fun _ => false, ProgramOutcome.ok []⟩ =
      RunOutcome.timeout 120 ∧
    run_program_with_timeout [] ⟨fun _ => true, ProgramOutcome.exc "boom"⟩ =
      RunOutcome.raised "boom" ∧
    (programCallKwargs "query" "hello").length = 1 := by
  have base := run_program_timeout_spec [] ⟨fun _ => false, ProgramOutcome.ok []⟩ "query" "hello"
  have h1 : programTimeoutSec [] = 120 := base.1 rfl
  have h2 : programTimeoutSec [("SUPEROPTIX_DSPY_PROGRAM_TIMEOUT_SEC", "30")] = 30 := by
    have h := (run_program_timeout_spec [("SUPEROPTIX_DSPY_PROGRAM_TIMEOUT_SEC", "30")]
      ⟨fun _ => false, ProgramOutcome.ok []⟩ "query" "hello").2.1 "30" (1 * ((30 : ℕ) : ℚ))
      rfl rfl
    rw [h]
    norm_num
  refine ⟨h1, h2, ?_, ?_, base.2.2.2.2.2⟩
  · have h3 := base.2.2.1 (by rw [h1]; norm_num) rfl
    rw [h1] at h3
    exact h3
  · exact (run_program_timeout_spec [] ⟨fun _ => true, ProgramOutcome.exc "boom"⟩
      "query" "hello").2.2.2.1 "boom" rfl rfl

/-!
## `DSPyRunner.optimize` (dspy_runner.py lines 1120-1561)

The claim-relevant control skeleton.  Filesystem and module effects are
abstracted as `Except`-valued inputs: `importResult` is the pipeline
module import (lines 1165-1173), `playbookLoad` the playbook read,
`cfgStep` the field-name/optimization-config gathering (lines
1179-1198), `legacyInit` the legacy pipeline-class construction (lines
1492-1497), and the two `rest` continuations stand for everything past
the scenario check (LM resolution, GEPA run or `pipeline.train`,
persistence), yielding either an uncaught exception message or a final
result together with whether the optimizer actually ran.  The whole
body sits in the `try`/`except` of lines 1138-1558, which converts any
exception into a returned failure record.  The legacy "Playbook not
found" message elides the interpolated path.
-/

/-- The fields of the `optimization_result` record that the claims
inspect. -/
structure OptimizationResult where
  success : Bool := false
  error : Option String := Option.none
  note : Option String := Option.none

/-- A continuation of `optimize` past the scenario check: an uncaught
exception message, or a result paired with whether the optimizer ran. -/
abbrev OptContinuation := Except String (OptimizationResult × Bool)

/-- `spec_data = playbook.get("spec", playbook)` (line 1178/1504). -/
def getSpecData (playbook : PyDict) : PyDict :=
  match getKey playbook "spec" with
  | Option.some v => asDict v
  | Option.none => playbook

/-- Scenario extraction (lines 1200-1206 and 1505-1512):
`feature_specifications.scenarios` when present and truthy, else the
top-level `scenarios` key, else the empty list. -/
def extractScenarios (specData : PyDict) : PyVal :=
  if hasKey specData "feature_specifications" ∧
      pyTruthy (getKeyD (asDict (getKeyD specData "feature_specifications" (.dict [])))
        "scenarios" .none) then
    getKeyD (asDict (getKeyD specData "feature_specifications" (.dict []))) "scenarios" .none
  else if hasKey specData "scenarios" then getKeyD specData "scenarios" .none
  else .list []

/-- The body of `optimize` inside its `try`: early skip when an
optimized state exists without `force`, then module import, then the
scenario check of the build-program path (lines 1200-1213) or of the
legacy path (lines 1500-1554). -/
def optimizeBody (optimizedExists force : Bool) (importResult : Except String Unit)
    (hasBuildProgram : Bool) (playbookLoad : Except String PyDict)
    (cfgStep : Except String Unit) (modernRest : OptContinuation)
    (legacyInit : Except String Unit) (playbookExists : Bool)
    (legacyLoad : Except String PyDict) (legacyRest : OptContinuation) :
    Except String (OptimizationResult × Bool) :=
  if optimizedExists = true ∧ force = false then
    Except.ok ({ success := true, note := Option.some "Already optimized" }, false)
  else
    importResult.bind fun _ =>
    if hasBuildProgram then
      playbookLoad.bind fun playbook =>
      cfgStep.bind fun _ =>
      if pyTruthy (extractScenarios (getSpecData playbook)) = false then
        Except.ok ({ success := false,
                     error := Option.some "No scenarios found in playbook for optimization" },
                   false)
      else modernRest
    else
      legacyInit.bind fun _ =>
      if playbookExists then
        legacyLoad.bind fun playbook =>
        if pyTruthy (extractScenarios (getSpecData playbook)) then legacyRest
        else Except.ok ({ success := false,
                           error := Option.some "No scenarios found in playbook for optimization" },
                         false)
      else
        Except.ok ({ success := false, error := Option.some "Playbook not found" }, false)

/-- `optimize`: the body's exceptions are caught (lines 1556-1558) and
reported in the returned record; the function itself always returns. -/
def optimize (optimizedExists force : Bool) (importResult : Except String Unit)
    (hasBuildProgram : Bool) (playbookLoad : Except String PyDict)
    (cfgStep : Except String Unit) (modernRest : OptContinuation)
    (legacyInit : Except String Unit) (playbookExists : Bool)
    (legacyLoad : Except String PyDict) (legacyRest : OptContinuation) :
    OptimizationResult × Bool :=
  match optimizeBody optimizedExists force importResult hasBuildProgram playbookLoad
      cfgStep modernRest legacyInit playbookExists legacyLoad legacyRest with
  | Except.ok r => r
  | Except.error e => ({ success := false, error := Option.some e }, false)

/-- C5: `optimize` with a persisted optimized state and no `force`
returns success with the "Already optimized" note without running the
optimizer; with no truthy scenarios in the playbook it returns a
non-success result carrying the "no scenarios" error without running
the optimizer; and any exception of the body is caught and reported in
the returned record rather than escaping. -/
theorem optimize_spec (optimizedExists force : Bool) (importResult : Except String Unit)
    (hasBuildProgram : Bool) (playbookLoad : Except String PyDict)
    (cfgStep : Except String Unit) (modernRest : OptContinuation)
    (legacyInit : Except String Unit) (playbookExists : Bool)
    (legacyLoad : Except String PyDict) (legacyRest : OptContinuation) :
    (optimizedExists = true → force = false →
      optimize optimizedExists force importResult hasBuildProgram playbookLoad cfgStep
          modernRest legacyInit playbookExists legacyLoad legacyRest =
        ({ success := true, error := Option.none, note := Option.some "Already optimized" },
         false)) ∧
    (∀ pb, (optimizedExists = false ∨ force = true) → importResult = Except.ok () →
      hasBuildProgram = true → playbookLoad = Except.ok pb → cfgStep = Except.ok () →
      pyTruthy (extractScenarios (getSpecData pb)) = false →
      optimize optimizedExists force importResult hasBuildProgram playbookLoad cfgStep
          modernRest legacyInit playbookExists legacyLoad legacyRest =
        ({ success := false,
           error := Option.some "No scenarios found in playbook for optimization",
           note := Option.none }, false)) ∧
    (∀ e, optimizeBody optimizedExists force importResult hasBuildProgram playbookLoad
        cfgStep modernRest legacyInit playbookExists legacyLoad legacyRest =
          Except.error e →
      optimize optimizedExists force importResult hasBuildProgram playbookLoad cfgStep
          modernRest legacyInit playbookExists legacyLoad legacyRest =
        ({ success := false, error := Option.some e, note := Option.none }, false)) := by
  refine ⟨?_, ?_, ?_⟩
  · intro h1 h2
    subst h1; subst h2
    simp [optimize, optimizeBody]
  · intro pb h1 h2 h3 h4 h5 h6
    have hcond : ¬ (optimizedExists = true ∧ force = false) := by
      rcases h1 with h | h <;> simp [h]
    subst h3
    simp [optimize, optimizeBody, hcond, h2, h4, h5, h6, Except.bind]
  · intro e he
    simp [optimize, he]

/-- Witness for C5: a concrete skip (state exists, no force) and a
concrete no-scenarios failure. -/
theorem optimize_spec_witness :
    optimize true false (Except.ok ()) true (Except.ok []) (Except.ok ())
        (Except.ok ({}, true)) (Except.ok ()) true (Except.ok []) (Except.ok ({}, true)) =
      ({ success := true, error := Option.none, note := Option.some "Already optimized" },
       false) ∧
    optimize false false (Except.ok ()) true (Except.ok []) (Except.ok ())
        (Except.ok ({}, true)) (Except.ok ()) true (Except.ok []) (Except.ok ({}, true)) =
      ({ success := false,
         error := Option.some "No scenarios found in playbook for optimization",
         note := Option.none }, false) :=
  ⟨(optimize_spec true false (Except.ok ()) true (Except.ok []) (Except.ok ())
      (Except.ok ({}, true)) (Except.ok ()) true (Except.ok []) (Except.ok ({}, true))).1
      rfl rfl,
   (optimize_spec false false (Except.ok ()) true (Except.ok []) (Except.ok ())
      (Except.ok ({}, true)) (Except.ok ()) true (Except.ok []) (Except.ok ({}, true))).2.1
      [] (Or.inl rfl) rfl rfl rfl rfl rfl⟩

/-!
## Tool invocation guard: `_wrapped` and `_calendly_retry_kwargs`
(dspy_runtime_helpers.py lines 445-547)

The underlying tool callable is abstracted by the outcomes of its first
invocation and of its (at most one) retry invocation; `datetime.now`
derived window bounds are the `startStr`/`endStr` inputs, and the
`calendly_get_current_user` lookup inside `_calendly_retry_kwargs` is
abstracted as the optional user uri it yields.  Trace events keep the
stage and a name-based detail (latency values are omitted). -/

/-- Outcome of one invocation of the underlying tool callable under
`_run_with_timeout`. -/
inductive CallOutcome where
  | ok (v : PyVal)
  | timedOut
  | exc (msg : String)

/-- `str(exc).replace("\n", " ").strip()`. -/
def sanitizeErr (e : String) : String :=
  pyStrip (String.mk (e.data.map (fun c => if c = Char.ofNat 10 then ' ' else c)))

/-- One guarded tool call: the tool's identity, declared schema keys,
original kwargs, the two possible underlying invocations, and the
synthesized retry inputs. -/
structure ToolCall where
  name : String
  schemaKeys : List String
  kwargs : List (String × PyVal)
  firstCall : CallOutcome
  retryCall : CallOutcome
  startStr : String
  endStr : String
  userUri : Option String

/-- The candidate date-window key pairs of `_calendly_retry_kwargs`. -/
def calendlyKeyPairs : List (String × String) :=
  [("start_time", "end_time"), ("min_start_time", "max_start_time"),
   ("start", "end"), ("from", "to"), ("start_date", "end_date")]

/-- The date-window loop: the first pair with a schema-supported key
and no prior binding adds its supported keys, then breaks. -/
def datePairsLoop (sk : List String) (startStr endStr : String) :
    List (String × String) → List (String × PyVal) → List (String × PyVal)
  | [], retry => retry
  | (a, b) :: rest, retry =>
      if (sk.contains a ∨ sk.contains b) ∧ hasKey retry a = false ∧ hasKey retry b = false then
        let r1 := if sk.contains a then retry ++ [(a, PyVal.str startStr)] else retry
        let r2 := if sk.contains b then r1 ++ [(b, PyVal.str endStr)] else r1
        r2
      else datePairsLoop sk startStr endStr rest retry

/-- The timezone loop: every schema-supported, unbound timezone key is
set to `"UTC"` (no break). -/
def tzLoop (sk : List String) : List String → List (String × PyVal) → List (String × PyVal)
  | [], retry => retry
  | k :: rest, retry =>
      tzLoop sk rest
        (if sk.contains k ∧ hasKey retry k = false then retry ++ [(k, PyVal.str "UTC")]
         else retry)

/-- The paging-limit loop: every schema-supported, unbound limit key is
set to `3` (no break). -/
def limitLoop (sk : List String) : List String → List (String × PyVal) → List (String × PyVal)
  | [], retry => retry
  | k :: rest, retry =>
      limitLoop sk rest
        (if sk.contains k ∧ hasKey retry k = false then retry ++ [(k, PyVal.int 3)]
         else retry)

/-- The user-context loop: the first schema-supported, unbound user key
gets the (truthy) user uri, then breaks. -/
def userLoop (sk : List String) (uri : Option String) :
    List String → List (String × PyVal) → List (String × PyVal)
  | [], retry => retry
  | k :: rest, retry =>
      if sk.contains k ∧ hasKey retry k = false ∧ uri.getD "" ≠ "" then
        retry ++ [(k, PyVal.str (uri.getD ""))]
      else userLoop sk uri rest retry

/-- `_calendly_retry_kwargs`: the original kwargs extended with a date
window, timezone, paging limit, and user context, each only under
schema-supported key names. -/
def calendlyRetryKwargs (sk : List String) (kwargs : List (String × PyVal))
    (startStr endStr : String) (uri : Option String) : List (String × PyVal) :=
  userLoop sk uri ["user", "user_uri", "uri"]
    (limitLoop sk ["count", "limit", "page_size", "per_page"]
      (tzLoop sk ["timezone", "tz", "time_zone"]
        (datePairsLoop sk startStr endStr calendlyKeyPairs kwargs)))

/-- A trace event: stage and detail. -/
abbrev TraceEvent := String × String

/-- How a guarded tool call fails: a fresh timeout error, or the
original exception re-raised. -/
inductive ToolErr where
  | timedOut (msg : String)
  | raised (msg : String)

/-- `_wrapped`: emit the start event, run the tool under its deadline;
a timeout raises a fresh `TimeoutError`; an exception from
`calendly_list_scheduled_events` whose sanitized message contains "400"
triggers exactly one retry with the synthesized kwargs (a successful
retry returns, a failed retry re-raises the original exception); every
other exception is re-raised unmodified after the error trace event.
Returns the outcome, the number of underlying invocations, and the
trace events. -/
def wrappedToolCall (t : ToolCall) : Except ToolErr PyVal × ℕ × List TraceEvent :=
  let startEv : TraceEvent := ("tool:start", t.name)
  match t.firstCall with
  | .ok v => (Except.ok v, 1, [startEv, ("tool:ok", t.name)])
  | .timedOut =>
      (Except.error (ToolErr.timedOut ("Tool " ++ t.name ++ " timed out")), 1,
       [startEv, ("tool:error", t.name ++ " timeout")])
  | .exc e =>
      if t.name = "calendly_list_scheduled_events" ∧ strInB "400" (sanitizeErr e) then
        match t.retryCall with
        | .ok v =>
            (Except.ok v, 2,
             [startEv, ("tool:retry", t.name), ("tool:ok", t.name ++ " retry")])
        | .timedOut =>
            (Except.error (ToolErr.raised e), 2,
             [startEv, ("tool:retry", t.name), ("tool:error", t.name)])
        | .exc _ =>
            (Except.error (ToolErr.raised e), 2,
             [startEv, ("tool:retry", t.name), ("tool:error", t.name)])
      else
        (Except.error (ToolErr.raised e), 1, [startEv, ("tool:error", t.name)])

/-- The key set of an assoc list. -/
def keysOf (xs : List (String × PyVal)) : List String :=
  xs.map (fun kv => kv.1)

theorem mem_keys_append (xs : List (String × PyVal)) (k a : String) (v : PyVal) :
    k ∈ keysOf (xs ++ [(a, v)]) → k ∈ keysOf xs ∨ k = a := by
  simp [keysOf]

theorem datePairsLoop_keys (sk : List String) (s e : String)
    (pairs : List (String × String)) (retry : List (String × PyVal)) :
    ∀ k ∈ keysOf (datePairsLoop sk s e pairs retry),
      k ∈ keysOf retry ∨ sk.contains k = true := by
  induction pairs generalizing retry with
  | nil => intro k hk; exact Or.inl hk
  | cons p rest ih =>
    obtain ⟨a, b⟩ := p
    intro k hk
    simp only [datePairsLoop] at hk
    split at hk
    · by_cases ha : sk.contains a = true
      · by_cases hb : sk.contains b = true
        · simp only [ha, hb, if_true] at hk
          rcases mem_keys_append _ k b (PyVal.str e) hk with hk1 | rfl
          · rcases mem_keys_append _ k a (PyVal.str s) hk1 with hk2 | rfl
            · exact Or.inl hk2
            · exact Or.inr ha
          · exact Or.inr hb
        · simp only [ha, hb, if_true, if_false, Bool.false_eq_true] at hk
          rcases mem_keys_append _ k a (PyVal.str s) hk with hk1 | rfl
          · exact Or.inl hk1
          · exact Or.inr ha
      · by_cases hb : sk.contains b = true
        · simp only [ha, hb, if_true, if_false, Bool.false_eq_true] at hk
          rcases mem_keys_append _ k b (PyVal.str e) hk with hk1 | rfl
          · exact Or.inl hk1
          · exact Or.inr hb
        · simp only [ha, hb, if_false, Bool.false_eq_true] at hk
          exact Or.inl hk
    · exact ih retry k hk

theorem tzLoop_keys (sk : List String) (keys : List String)
    (retry : List (String × PyVal)) :
    ∀ k ∈ keysOf (tzLoop sk keys retry), k ∈ keysOf retry ∨ sk.contains k = true := by
  induction keys generalizing retry with
  | nil => intro k hk; exact Or.inl hk
  | cons x rest ih =>
    intro k hk
    simp only [tzLoop] at hk
    rcases ih _ k hk with h | h
    · split at h
      · next hc =>
        rcases mem_keys_append _ k x (PyVal.str "UTC") h with h1 | rfl
        · exact Or.inl h1
        · exact Or.inr hc.1
      · exact Or.inl h
    · exact Or.inr h

theorem limitLoop_keys (sk : List String) (keys : List String)
    (retry : List (String × PyVal)) :
    ∀ k ∈ keysOf (limitLoop sk keys retry), k ∈ keysOf retry ∨ sk.contains k = true := by
  induction keys generalizing retry with
  | nil => intro k hk; exact Or.inl hk
  | cons x rest ih =>
    intro k hk
    simp only [limitLoop] at hk
    rcases ih _ k hk with h | h
    · split at h
      · next hc =>
        rcases mem_keys_append _ k x (PyVal.int 3) h with h1 | rfl
        · exact Or.inl h1
        · exact Or.inr hc.1
      · exact Or.inl h
    · exact Or.inr h

theorem userLoop_keys (sk : List String) (uri : Option String) (keys : List String)
    (retry : List (String × PyVal)) :
    ∀ k ∈ keysOf (userLoop sk uri keys retry), k ∈ keysOf retry ∨ sk.contains k = true := by
  induction keys generalizing retry with
  | nil => intro k hk; exact Or.inl hk
  | cons x rest ih =>
    intro k hk
    simp only [userLoop] at hk
    split at hk
    · next hc =>
      rcases mem_keys_append _ k x (PyVal.str (uri.getD "")) hk with h1 | rfl
      · exact Or.inl h1
      · exact Or.inr hc.1
    · exact ih retry k hk

theorem calendlyRetryKwargs_keys (sk : List String) (kwargs : List (String × PyVal))
    (s e : String) (uri : Option String) :
    ∀ k ∈ keysOf (calendlyRetryKwargs sk kwargs s e uri),
      k ∈ keysOf kwargs ∨ sk.contains k = true := by
  intro k hk
  unfold calendlyRetryKwargs at hk
  rcases userLoop_keys _ _ _ _ k hk with h | h
  · rcases limitLoop_keys _ _ _ k h with h2 | h2
    · rcases tzLoop_keys _ _ _ k h2 with h3 | h3
      · rcases datePairsLoop_keys _ _ _ _ _ k h3 with h4 | h4
        · exact Or.inl h4
        · exact Or.inr h4
      · exact Or.inr h3
    · exact Or.inr h2
  · exact Or.inr h

/-- C6: a guarded tool call makes at most two underlying invocations; a
second invocation happens only for `calendly_list_scheduled_events`
failing with an error whose sanitized message contains "400"; any other
exception is re-raised unmodified (the original exception object) after
a `tool:error` trace event, with a single invocation; a matched retry
that fails also re-raises the original exception; and every key of the
synthesized retry kwargs is an original kwarg key or a declared schema
key. -/
theorem tool_guard_retry_spec (t : ToolCall) :
    (wrappedToolCall t).2.1 ≤ 2 ∧
    ((wrappedToolCall t).2.1 = 2 →
      t.name = "calendly_list_scheduled_events" ∧
      ∃ e, t.firstCall = CallOutcome.exc e ∧ strInB "400" (sanitizeErr e) = true) ∧
    (∀ e, t.firstCall = CallOutcome.exc e →
      ¬ (t.name = "calendly_list_scheduled_events" ∧ strInB "400" (sanitizeErr e) = true) →
      (wrappedToolCall t).1 = Except.error (ToolErr.raised e) ∧
      ("tool:error", t.name) ∈ (wrappedToolCall t).2.2 ∧
      (wrappedToolCall t).2.1 = 1) ∧
    (∀ e e2, t.firstCall = CallOutcome.exc e →
      t.name = "calendly_list_scheduled_events" → strInB "400" (sanitizeErr e) = true →
      t.retryCall = CallOutcome.exc e2 →
      (wrappedToolCall t).1 = Except.error (ToolErr.raised e) ∧
      (wrappedToolCall t).2.1 = 2) ∧
    (∀ k ∈ keysOf (calendlyRetryKwargs t.schemaKeys t.kwargs t.startStr t.endStr t.userUri),
      k ∈ keysOf t.kwargs ∨ t.schemaKeys.contains k = true) := by
  refine ⟨?_, ?_, ?_, ?_, calendlyRetryKwargs_keys _ _ _ _ _⟩
  · cases hf : t.firstCall with
    | ok v => simp [wrappedToolCall, hf]
    | timedOut => simp [wrappedToolCall, hf]
    | exc e =>
      by_cases hm : t.name = "calendly_list_scheduled_events" ∧
          strInB "400" (sanitizeErr e) = true
      · cases hr : t.retryCall <;> simp [wrappedToolCall, hf, hm, hr]
      · simp [wrappedToolCall, hf, hm]
  · intro h2
    cases hf : t.firstCall with
    | ok v => rw [show (wrappedToolCall t).2.1 = 1 by simp [wrappedToolCall, hf]] at h2; omega
    | timedOut =>
      rw [show (wrappedToolCall t).2.1 = 1 by simp [wrappedToolCall, hf]] at h2; omega
    | exc e =>
      by_cases hm : t.name = "calendly_list_scheduled_events" ∧
          strInB "400" (sanitizeErr e) = true
      · exact ⟨hm.1, e, rfl, hm.2⟩
      · rw [show (wrappedToolCall t).2.1 = 1 by simp [wrappedToolCall, hf, hm]] at h2; omega
  · intro e hf hm
    simp [wrappedToolCall, hf, hm]
  · intro e e2 hf hn h4 hr
    have hm : t.name = "calendly_list_scheduled_events" ∧
        strInB "400" (sanitizeErr e) = true := ⟨hn, h4⟩
    simp [wrappedToolCall, hf, hm, hr]

/-- Witness for C6 at a concrete non-matching failure: one invocation,
the original exception propagated, an error trace event emitted. -/
theorem tool_guard_retry_spec_witness :
    (wrappedToolCall
      { name := "web_search", schemaKeys := [], kwargs := [],
        firstCall := CallOutcome.exc "boom", retryCall := CallOutcome.ok PyVal.none,
        startStr := "s", endStr := "e", userUri := Option.none }).1 =
        Except.error (ToolErr.raised "boom") ∧
    ("tool:error", "web_search") ∈
      (wrappedToolCall
        { name := "web_search", schemaKeys := [], kwargs := [],
          firstCall := CallOutcome.exc "boom", retryCall := CallOutcome.ok PyVal.none,
          startStr := "s", endStr := "e", userUri := Option.none }).2.2 ∧
    (wrappedToolCall
      { name := "web_search", schemaKeys := [], kwargs := [],
        firstCall := CallOutcome.exc "boom", retryCall := CallOutcome.ok PyVal.none,
        startStr := "s", endStr := "e", userUri := Option.none }).2.1 = 1 :=
  (tool_guard_retry_spec
    { name := "web_search", schemaKeys := [], kwargs := [],
      firstCall := CallOutcome.exc "boom", retryCall := CallOutcome.ok PyVal.none,
      startStr := "s", endStr := "e", userUri := Option.none }).2.2.1
    "boom" rfl (by decide)

end SuperOptix

